import Mathlib

/-
Verification of the Document360 folder client (src/document360_api.py).

The embedding models decoded Python values as the inductive type `Json`
(`Json.null` doubles as the Python `None` value, as produced both by JSON
decoding of `null` and by defaulted arguments), HTTP responses as records,
and each client method as a total function from the client state, the
method arguments and the transport outcome of the one HTTP call the method
makes, to the new client state, the Python return value, whether the
transport was invoked, the request URL and body, and the list of
diagnostic lines printed by the method body.

Conventions, matching the source:
- Python truthiness is `Json.truthy` (used by `if x:` and by `a or b`).
- `d.get(k, default)` on a value that is not a dict raises
  `AttributeError`; this is modelled explicitly, because the methods catch
  broad exceptions and turn them into their failure return value.
- `response.json()` raising on an undecodable body is modelled by
  `HttpResponse.jsonBody = none`.  In current `requests`,
  `requests.exceptions.JSONDecodeError` is a subclass of
  `requests.exceptions.RequestException`, so the decode failure is caught
  by the `RequestException` handler.
- Exception message texts are Python-runtime strings; they are modelled by
  fixed representative stand-ins, since no control flow depends on them.
- The purely observational helpers `log_request` and `log_response`
  (timestamps, header dumps) are not modelled; the diagnostic lines the
  method bodies themselves print are, because some claims are about them.
  Tracing never affects control flow in the source.
-/

/-- A decoded Python/JSON value.  `null` is the Python `None`. -/
inductive Json where
  | null : Json
  | bool (b : Bool) : Json
  | num (n : Int) : Json
  | str (s : String) : Json
  | arr (elems : List Json) : Json
  | obj (fields : List (String × Json)) : Json

/-- Python truthiness of a value, as used by `if x:` and `a or b`. -/
def Json.truthy : Json → Bool
  | .null => false
  | .bool b => b
  | .num n => n != 0
  | .str s => s != ("")
  | .arr xs => !xs.isEmpty
  | .obj fs => !fs.isEmpty

/-- Key lookup in a decoded dict (association list, keys distinct). -/
def lookupField (fs : List (String × Json)) (k : String) : Option Json :=
  match fs with
  | [] => none
  | (k2, v) :: rest => if k2 == k then some v else lookupField rest k

/-- Key lookup on a value that may or may not be a dict. -/
def Json.getKey : Json → String → Option Json
  | .obj fs, k => lookupField fs k
  | _, _ => none

/-- Whether a value is a dict carrying the given key. -/
def Json.hasKey (j : Json) (k : String) : Bool :=
  (j.getKey k).isSome

/-- Python `repr` of a decoded value (string quoting approximated). -/
def pyRepr : Json → String
  | .null => "None"
  | .bool true => "True"
  | .bool false => "False"
  | .num n => toString n
  | .str s => "\x27" ++ s ++ "\x27"
  | .arr xs =>
      "[" ++ String.intercalate (", ") (xs.attach.map (fun x => pyRepr x.1)) ++ "]"
  | .obj fs =>
      "\x7b" ++ String.intercalate (", ")
        (fs.attach.map (fun p => "\x27" ++ p.1.1 ++ "\x27: " ++ pyRepr p.1.2)) ++ "\x7d"
  decreasing_by
  · simp_wf
    have := List.sizeOf_lt_of_mem x.2
    omega
  · simp_wf
    obtain ⟨⟨a, b⟩, hp⟩ := p
    have := List.sizeOf_lt_of_mem hp
    simp at this ⊢
    omega

/-- Python `str` of a decoded value, as interpolated by f-strings. -/
def pyStr : Json → String
  | .str s => s
  | j => pyRepr j

/-- Python `len`, defined only for sized values (`str`, `list`, `dict`);
`none` models the `TypeError` raised otherwise. -/
def pyLen : Json → Option Nat
  | .str s => some s.length
  | .arr xs => some xs.length
  | .obj fs => some fs.length
  | _ => none

/-- Python iteration (`for x in v`): lists yield elements, strings yield
one-character strings, dicts yield their keys; `none` models the
`TypeError` raised for non-iterable values. -/
def pyIterate : Json → Option (List Json)
  | .arr xs => some xs
  | .str s => some (s.data.map (fun ch => Json.str (String.mk [ch])))
  | .obj fs => some (fs.map (fun p => Json.str p.1))
  | _ => none

/-- A Python exception reaching one of the `except` clauses. -/
inductive PyExn where
  | requestError (msg : String)
  | jsonDecodeError (msg : String)
  | attributeError (msg : String)
  | typeError (msg : String)

/-- Whether the exception is a `requests.exceptions.RequestException`.
`JSONDecodeError` is one in current `requests`. -/
def PyExn.isRequestException : PyExn → Bool
  | .requestError _ => true
  | .jsonDecodeError _ => true
  | .attributeError _ => false
  | .typeError _ => false

/-- The message text of the exception, as printed by `str(e)`. -/
def PyExn.msg : PyExn → String
  | .requestError m => m
  | .jsonDecodeError m => m
  | .attributeError m => m
  | .typeError m => m

/-- Stand-in for the runtime json decode error message. -/
def decodeErrMsg : String := "Expecting value: line 1 column 1 (char 0)"

/-- Stand-in for the runtime attribute error message on `x.get`. -/
def getAttrErrMsg : String := "object has no attribute \x27get\x27"

/-- Stand-in for the runtime type error message on non-iterables. -/
def iterErrMsg : String := "object is not iterable"

/-- Stand-in for the runtime type error message on `len`. -/
def lenErrMsg : String := "object has no len"

/-- The observed HTTP response: status code, raw body text (empty string
for an empty body), and the JSON decode of the body (`none` when the body
does not decode, in which case `response.json()` raises). -/
structure HttpResponse where
  status : Nat
  content : String
  jsonBody : Option Json

/-- Outcome of the one transport call a method makes: a response, or an
exception raised by the `requests` call itself. -/
inductive TransportOutcome where
  | ok (r : HttpResponse)
  | exn (e : PyExn)

/-- The client state (`Document360API.__init__`, lines 7 to 28):
credentials, the header mapping built once, and the mutable
`folder_id` cache (`None` at construction). -/
structure Client where
  api_token : Json
  user_id : Json
  headers : List (String × Json)
  folder_id : Json

/-- Fixed resource base path (line 17). -/
def base_url : String := "https://apihub.document360.io/v2/Drive/Folders"

/-- `Document360API.__init__` (lines 7 to 28). -/
def initClient (api_token : Json) (user_id : Json) : Client :=
  { api_token := api_token
    user_id := user_id
    headers :=
      [("api_token", api_token), ("Content-Type", Json.str ("application/json"))]
        ++ (if user_id.truthy then [("user_id", user_id)] else [])
    folder_id := Json.null }

/-- Everything observable about one method call: the client state after
the call, the Python return value, whether the transport was invoked, the
request URL and JSON body handed to the transport (absent when no network
call was made, or for the body-less GET), and the diagnostic lines printed
by the method body. -/
structure MethodOut where
  client : Client
  ret : Json
  networkCalled : Bool
  requestUrl : Option String
  requestBody : Option Json
  log : List String

/-- The diagnostic line printed by the `except` clauses (lines 95 to 99
and their copies): the `RequestException` handler prints REQUEST ERROR,
the broad handler prints UNEXPECTED ERROR. -/
def exnLine (e : PyExn) : String :=
  if e.isRequestException then "❌ REQUEST ERROR: " ++ e.msg
  else "❌ UNEXPECTED ERROR: " ++ e.msg

/-- The `for error in errors:` loop bodies (lines 152 to 153 and copies):
each element must support `.get`; a non-dict element raises
`AttributeError` after the earlier lines were already printed. -/
def errorLoopLines : List Json → List String × Option PyExn
  | [] => ([], none)
  | e :: rest =>
    match e with
    | .obj fs =>
      let line := "  Error: " ++
        pyStr ((lookupField fs ("description")).getD (.str ("Unknown error")))
      let r := errorLoopLines rest
      (line :: r.1, r.2)
    | _ => ([], some (.attributeError getAttrErrMsg))

/-- Error extraction on the explicit-failure path of create and rename
(lines 151 to 153, 218 to 220): read `errors` (default empty list) and
print one line per error; exceptions escape to the method handlers. -/
def failureBranchLines (fs : List (String × Json)) : List String × Option PyExn :=
  let errors := (lookupField fs ("errors")).getD (.arr [])
  match pyIterate errors with
  | none => ([], some (.typeError iterErrMsg))
  | some xs => errorLoopLines xs

/-- The folder display loop of `get_all_folders` (lines 83 to 88):
each folder must support `.get`; the loop raises `AttributeError` on a
non-dict element, after the earlier lines were already printed. -/
def folderDisplayLines : Nat → List Json → List String × Option PyExn
  | _, [] => ([], none)
  | i, f :: rest =>
    match f with
    | .obj fs =>
      let lines := ["Folder " ++ toString i ++ ":",
        "  Name: " ++ pyStr ((lookupField fs ("title")).getD (.str ("N/A"))),
        "  ID: " ++ pyStr ((lookupField fs ("id")).getD (.str ("N/A"))),
        "  Updated: " ++ pyStr ((lookupField fs ("updated_on")).getD (.str ("N/A"))),
        "  Items Count: " ++ pyStr ((lookupField fs ("items_count")).getD (.num 0))]
      let r := folderDisplayLines (i + 1) rest
      (lines ++ r.1, r.2)
    | _ => ([], some (.attributeError getAttrErrMsg))

/-- `get_all_folders` (lines 58 to 100).  GET on the base URL; on status
200 decodes the body, reads `data` (default empty list), prints the
folder listing, and returns the list; any other status returns `None`;
exceptions (transport, decode, attribute and type errors in the body) are
caught and turn into a `None` return. -/
def get_all_folders (c : Client) (t : TransportOutcome) : MethodOut :=
  match t with
  | .exn e =>
    { client := c, ret := .null, networkCalled := true,
      requestUrl := some base_url, requestBody := none, log := [exnLine e] }
  | .ok r =>
    if r.status = 200 then
      match r.jsonBody with
      | none =>
        { client := c, ret := .null, networkCalled := true,
          requestUrl := some base_url, requestBody := none,
          log := [exnLine (.jsonDecodeError decodeErrMsg)] }
      | some j =>
        match j with
        | .obj fs =>
          let folders := (lookupField fs ("data")).getD (.arr [])
          match pyLen folders with
          | none =>
            { client := c, ret := .null, networkCalled := true,
              requestUrl := some base_url, requestBody := none,
              log := [exnLine (.typeError lenErrMsg)] }
          | some n =>
            let headline := "✅ SUCCESS: Found " ++ toString n ++ " folders"
            match pyIterate folders with
            | none =>
              { client := c, ret := .null, networkCalled := true,
                requestUrl := some base_url, requestBody := none,
                log := [headline, exnLine (.typeError iterErrMsg)] }
            | some xs =>
              match folderDisplayLines 1 xs with
              | (ls, none) =>
                { client := c, ret := folders, networkCalled := true,
                  requestUrl := some base_url, requestBody := none,
                  log := headline :: ls }
              | (ls, some e) =>
                { client := c, ret := .null, networkCalled := true,
                  requestUrl := some base_url, requestBody := none,
                  log := (headline :: ls) ++ [exnLine e] }
        | _ =>
          { client := c, ret := .null, networkCalled := true,
            requestUrl := some base_url, requestBody := none,
            log := [exnLine (.attributeError getAttrErrMsg)] }
    else
      { client := c, ret := .null, networkCalled := true,
        requestUrl := some base_url, requestBody := none,
        log := ["❌ ERROR: Failed to fetch folders"] }

/-- `create_folder` (lines 102 to 164).  POST on the base URL with a body
of title, user id and optional parent id.  On status 200 or 201 the body
is decoded and must carry a truthy `success`; then `data` (default empty
dict) is read, its `id` (default `None`) is stored into `folder_id`, and
the data dict is returned.  A falsy or absent `success` prints the error
list and returns `None`; any other status returns `None`; exceptions are
caught and turn into a `None` return without touching `folder_id`. -/
def create_folder (c : Client) (folder_name : Json) (parent_folder_id : Json)
    (t : TransportOutcome) : MethodOut :=
  let reqBody : Json := .obj
    ([("title", folder_name), ("user_id", c.user_id)]
      ++ (if parent_folder_id.truthy then [("parent_folder_id", parent_folder_id)] else []))
  match t with
  | .exn e =>
    { client := c, ret := .null, networkCalled := true,
      requestUrl := some base_url, requestBody := some reqBody, log := [exnLine e] }
  | .ok r =>
    if r.status = 200 ∨ r.status = 201 then
      match r.jsonBody with
      | none =>
        { client := c, ret := .null, networkCalled := true,
          requestUrl := some base_url, requestBody := some reqBody,
          log := [exnLine (.jsonDecodeError decodeErrMsg)] }
      | some j =>
        match j with
        | .obj fs =>
          if ((lookupField fs ("success")).getD (.bool false)).truthy then
            match (lookupField fs ("data")).getD (.obj []) with
            | .obj gs =>
              let idv := (lookupField gs ("id")).getD .null
              { client := { c with folder_id := idv }, ret := .obj gs,
                networkCalled := true, requestUrl := some base_url,
                requestBody := some reqBody,
                log := ["✅ SUCCESS: Folder created successfully!",
                  "  Folder Name: " ++ pyStr ((lookupField gs ("title")).getD (.str ("N/A"))),
                  "  Folder ID: " ++ pyStr idv,
                  "  Updated At: " ++ pyStr ((lookupField gs ("updated_on")).getD (.str ("N/A")))] }
            | _ =>
              -- folder_data.get raises AttributeError, so folder_id is not assigned
              { client := c, ret := .null, networkCalled := true,
                requestUrl := some base_url, requestBody := some reqBody,
                log := [exnLine (.attributeError getAttrErrMsg)] }
          else
            let el := failureBranchLines fs
            { client := c, ret := .null, networkCalled := true,
              requestUrl := some base_url, requestBody := some reqBody,
              log := ("❌ ERROR: API returned success=false" :: el.1)
                ++ (match el.2 with | some e => [exnLine e] | none => []) }
        | _ =>
          -- response_data.get raises AttributeError on a non-dict body
          { client := c, ret := .null, networkCalled := true,
            requestUrl := some base_url, requestBody := some reqBody,
            log := [exnLine (.attributeError getAttrErrMsg)] }
    else
      { client := c, ret := .null, networkCalled := true,
        requestUrl := some base_url, requestBody := some reqBody,
        log := ["❌ ERROR: Failed to create folder"] }

/-- `update_folder_name` (lines 166 to 231).  Resolves the target id with
`folder_id or self.folder_id`; a falsy resolution returns `None` before
any network call.  PUT on the id-suffixed URL; on status 200 the body is
decoded and must carry a truthy `success`; then `data` (default empty
dict) is returned.  `self.folder_id` is never assigned. -/
def update_folder_name (c : Client) (new_name : Json) (folder_id : Json)
    (t : TransportOutcome) : MethodOut :=
  let target_folder_id := if folder_id.truthy then folder_id else c.folder_id
  if target_folder_id.truthy then
    let url := base_url ++ "/" ++ pyStr target_folder_id
    let reqBody : Json := .obj [("title", new_name), ("user_id", c.user_id)]
    match t with
    | .exn e =>
      { client := c, ret := .null, networkCalled := true,
        requestUrl := some url, requestBody := some reqBody, log := [exnLine e] }
    | .ok r =>
      if r.status = 200 then
        match r.jsonBody with
        | none =>
          { client := c, ret := .null, networkCalled := true,
            requestUrl := some url, requestBody := some reqBody,
            log := [exnLine (.jsonDecodeError decodeErrMsg)] }
        | some j =>
          match j with
          | .obj fs =>
            if ((lookupField fs ("success")).getD (.bool false)).truthy then
              match (lookupField fs ("data")).getD (.obj []) with
              | .obj gs =>
                { client := c, ret := .obj gs, networkCalled := true,
                  requestUrl := some url, requestBody := some reqBody,
                  log := ["✅ SUCCESS: Folder name updated successfully!",
                    "  New Folder Name: " ++ pyStr ((lookupField gs ("title")).getD (.str ("N/A"))),
                    "  Folder ID: " ++ pyStr target_folder_id,
                    "  Updated At: " ++ pyStr ((lookupField gs ("updated_on")).getD (.str ("N/A")))] }
              | _ =>
                -- the success line printed, then folder_data.get raises
                { client := c, ret := .null, networkCalled := true,
                  requestUrl := some url, requestBody := some reqBody,
                  log := ["✅ SUCCESS: Folder name updated successfully!",
                    exnLine (.attributeError getAttrErrMsg)] }
            else
              let el := failureBranchLines fs
              { client := c, ret := .null, networkCalled := true,
                requestUrl := some url, requestBody := some reqBody,
                log := ("❌ ERROR: API returned success=false" :: el.1)
                  ++ (match el.2 with | some e => [exnLine e] | none => []) }
          | _ =>
            { client := c, ret := .null, networkCalled := true,
              requestUrl := some url, requestBody := some reqBody,
              log := [exnLine (.attributeError getAttrErrMsg)] }
      else
        { client := c, ret := .null, networkCalled := true,
          requestUrl := some url, requestBody := some reqBody,
          log := ["❌ ERROR: Failed to update folder name"] }
  else
    { client := c, ret := .null, networkCalled := false,
      requestUrl := none, requestBody := none,
      log := ["❌ ERROR: No folder ID available. Create a folder first."] }

/-- `delete_folder` (lines 233 to 309).  Same id resolution and local
precondition as rename (a falsy resolution returns `None` with no network
call).  DELETE on the id-suffixed URL; on status 200 or 204, `success` is
`True` for an empty body, for an undecodable or non-dict body (the inner
bare `except`), and for a decodable dict without the key (default
`True`); a truthy `success` clears `folder_id` and returns `True`; a
falsy one best-effort prints the error list and returns `False`.  Any
other status, or a transport exception, returns `False`. -/
def delete_folder (c : Client) (folder_id : Json) (t : TransportOutcome) : MethodOut :=
  let target_folder_id := if folder_id.truthy then folder_id else c.folder_id
  if target_folder_id.truthy then
    let url := base_url ++ "/" ++ pyStr target_folder_id
    let reqBody : Json := .obj [("user_id", c.user_id)]
    match t with
    | .exn e =>
      { client := c, ret := .bool false, networkCalled := true,
        requestUrl := some url, requestBody := some reqBody, log := [exnLine e] }
    | .ok r =>
      if r.status = 200 ∨ r.status = 204 then
        let success : Json :=
          if r.content ≠ ("") then
            match r.jsonBody with
            | some (.obj fs) => (lookupField fs ("success")).getD (.bool true)
            | _ => .bool true
          else .bool true
        if success.truthy then
          { client := { c with folder_id := .null }, ret := .bool true,
            networkCalled := true, requestUrl := some url, requestBody := some reqBody,
            log := ["✅ SUCCESS: Folder deleted successfully!",
              "  Deleted Folder ID: " ++ pyStr target_folder_id] }
        else
          let extra : List String :=
            if r.content ≠ ("") then
              match r.jsonBody with
              | some (.obj fs) =>
                match pyIterate ((lookupField fs ("errors")).getD (.arr [])) with
                | some xs => (errorLoopLines xs).1
                | none => []
              | _ => []
            else []
          { client := c, ret := .bool false, networkCalled := true,
            requestUrl := some url, requestBody := some reqBody,
            log := "❌ ERROR: API returned success=false" :: extra }
      else
        { client := c, ret := .bool false, networkCalled := true,
          requestUrl := some url, requestBody := some reqBody,
          log := ["❌ ERROR: Failed to delete folder"] }
  else
    { client := c, ret := .null, networkCalled := false,
      requestUrl := none, requestBody := none,
      log := ["❌ ERROR: No folder ID available. Create a folder first."] }

/-- `validate_response` (lines 311 to 322). -/
def validate_response (r : HttpResponse) (expected_status_codes : List Nat) :
    Bool × String :=
  if (expected_status_codes.contains r.status) = false then
    (false, "Unexpected status code: " ++ toString r.status)
  else
    match r.jsonBody with
    | some _ => (true, "Valid JSON response")
    | none => (false, "Invalid JSON response")

/-- A concrete freshly constructed client, used by witnesses. -/
def sampleClient : Client := initClient (Json.str ("tok")) (Json.str ("usr"))

/-- The sample client after a create stored the folder id abc. -/
def clientAbc : Client := { sampleClient with folder_id := Json.str ("abc") }

/-- Raw body text of the duplicate-name rename rejection. -/
def dupContent : String :=
  "\x7b\"success\": false, \"errors\": [\x7b\"description\": \"dup\"\x7d]\x7d"

/-- Decoded body of the duplicate-name rename rejection. -/
def dupBody : Json :=
  Json.obj [("success", Json.bool false),
    ("errors", Json.arr [Json.obj [("description", Json.str ("dup"))]])]

/-- The rename method performs no assignment to any client field. -/
theorem update_client_frame (c : Client) (new_name folder_id : Json)
    (t : TransportOutcome) :
    (update_folder_name c new_name folder_id t).client = c := by
  simp only [update_folder_name]
  repeat' split <;> try rfl

/-- A defaulted rename with no stored id fails locally (lines 179 to 183). -/
theorem update_prec (c : Client) (new_name : Json) (t : TransportOutcome)
    (h : c.folder_id = Json.null) :
    (update_folder_name c new_name Json.null t).ret = Json.null ∧
    (update_folder_name c new_name Json.null t).networkCalled = false := by
  simp [update_folder_name, Json.truthy, h]

/-- A defaulted delete with no stored id fails locally (lines 245 to 249). -/
theorem delete_prec (c : Client) (t : TransportOutcome)
    (h : c.folder_id = Json.null) :
    (delete_folder c Json.null t).ret = Json.null ∧
    (delete_folder c Json.null t).networkCalled = false := by
  simp [delete_folder, Json.truthy, h]

/-- A delete returning `True` has cleared `folder_id` (lines 281 to 288). -/
theorem delete_ret_true_client (c : Client) (folder_id : Json) (t : TransportOutcome)
    (h : (delete_folder c folder_id t).ret = Json.bool true) :
    (delete_folder c folder_id t).client = { c with folder_id := Json.null } := by
  simp only [delete_folder] at h ⊢
  repeat' split at h
  all_goals simp_all

/-- A delete not returning `True` leaves the client unchanged. -/
theorem delete_ret_ne_true_client (c : Client) (folder_id : Json) (t : TransportOutcome)
    (h : (delete_folder c folder_id t).ret ≠ Json.bool true) :
    (delete_folder c folder_id t).client = c := by
  simp only [delete_folder] at h ⊢
  repeat' split at h
  all_goals simp_all

/-- The create success branch (lines 139 to 148): the data dict is returned and its id stored. -/
theorem create_success_branch (c : Client) (folder_name parent_folder_id : Json)
    (r : HttpResponse) (fs gs : List (String × Json))
    (hst : r.status = 200 ∨ r.status = 201)
    (hb : r.jsonBody = some (Json.obj fs))
    (hs : lookupField fs ("success") = some (Json.bool true))
    (hd : (lookupField fs ("data")).getD (Json.obj []) = Json.obj gs) :
    (create_folder c folder_name parent_folder_id (TransportOutcome.ok r)).ret = Json.obj gs ∧
    (create_folder c folder_name parent_folder_id (TransportOutcome.ok r)).client.folder_id
      = (lookupField gs ("id")).getD Json.null := by
  simp only [create_folder, hb]
  rw [if_pos hst]
  simp only [hs, Option.getD_some, Json.truthy, if_true]
  rw [hd]
  exact ⟨rfl, rfl⟩

/-- A create outside status 200 and 201 returns `None` (lines 155 to 157). -/
theorem create_bad_status_ret_null (c : Client) (folder_name parent_folder_id : Json)
    (r : HttpResponse) (hst : ¬(r.status = 200 ∨ r.status = 201)) :
    (create_folder c folder_name parent_folder_id (TransportOutcome.ok r)).ret = Json.null := by
  simp only [create_folder]
  rw [if_neg hst]

/-- A rename outside status 200 returns `None` (lines 222 to 224). -/
theorem update_bad_status_ret_null (c : Client) (new_name folder_id : Json)
    (r : HttpResponse) (hst : r.status ≠ 200) :
    (update_folder_name c new_name folder_id (TransportOutcome.ok r)).ret = Json.null := by
  simp only [update_folder_name]
  repeat' split
  all_goals first | rfl | exact absurd (by assumption) hst

/-- A create whose decoded body lacks a truthy success returns `None` (lines 139, 149 to 154). -/
theorem create_no_success_ret_null (c : Client) (folder_name parent_folder_id : Json)
    (r : HttpResponse) (j : Json) (hb : r.jsonBody = some j)
    (hns : j.getKey ("success") = none ∨ j.getKey ("success") = some (Json.bool false)) :
    (create_folder c folder_name parent_folder_id (TransportOutcome.ok r)).ret = Json.null := by
  cases j with
  | obj fs =>
    simp only [Json.getKey] at hns
    simp only [create_folder, hb]
    repeat' split
    all_goals try rfl
    all_goals (rcases hns with h | h <;> simp [h, Json.truthy] at *)
  | null => simp only [create_folder, hb]; repeat' split; all_goals first | rfl | (split <;> first | rfl | (split <;> rfl))
  | bool b => simp only [create_folder, hb]; repeat' split; all_goals first | rfl | (split <;> first | rfl | (split <;> rfl))
  | num n => simp only [create_folder, hb]; repeat' split; all_goals first | rfl | (split <;> first | rfl | (split <;> rfl))
  | str s => simp only [create_folder, hb]; repeat' split; all_goals first | rfl | (split <;> first | rfl | (split <;> rfl))
  | arr xs => simp only [create_folder, hb]; repeat' split; all_goals first | rfl | (split <;> first | rfl | (split <;> rfl))

/-- A rename whose decoded body lacks a truthy success returns `None` (lines 207, 216 to 221). -/
theorem update_no_success_ret_null (c : Client) (new_name folder_id : Json)
    (r : HttpResponse) (j : Json) (hb : r.jsonBody = some j)
    (hns : j.getKey ("success") = none ∨ j.getKey ("success") = some (Json.bool false)) :
    (update_folder_name c new_name folder_id (TransportOutcome.ok r)).ret = Json.null := by
  cases j with
  | obj fs =>
    simp only [Json.getKey] at hns
    simp only [update_folder_name, hb]
    repeat' split
    all_goals try rfl
    all_goals (rcases hns with h | h <;> simp [h, Json.truthy] at *)
  | null => simp only [update_folder_name, hb]; repeat' split; all_goals first | rfl | (split <;> first | rfl | (split <;> rfl))
  | bool b => simp only [update_folder_name, hb]; repeat' split; all_goals first | rfl | (split <;> first | rfl | (split <;> rfl))
  | num n => simp only [update_folder_name, hb]; repeat' split; all_goals first | rfl | (split <;> first | rfl | (split <;> rfl))
  | str s => simp only [update_folder_name, hb]; repeat' split; all_goals first | rfl | (split <;> first | rfl | (split <;> rfl))
  | arr xs => simp only [update_folder_name, hb]; repeat' split; all_goals first | rfl | (split <;> first | rfl | (split <;> rfl))

/-- C1 counterexample: a create response with accepted status and a body
containing success true, but a non-dict `data` value, makes
`folder_data.get` raise; the broad handler returns `None` (the failure
return) and `folder_id` is never assigned — refuting the claim that every
such call returns Success and stores a record id. -/
theorem C1_counterexample :
    (create_folder sampleClient (Json.str ("X")) Json.null
      (TransportOutcome.ok ⟨200, ("\x7b\"success\": true, \"data\": 5\x7d"),
        some (Json.obj [("success", Json.bool true), ("data", Json.num 5)])⟩)).ret
      = Json.null ∧
    (create_folder sampleClient (Json.str ("X")) Json.null
      (TransportOutcome.ok ⟨200, ("\x7b\"success\": true, \"data\": 5\x7d"),
        some (Json.obj [("success", Json.bool true), ("data", Json.num 5)])⟩)).client
      = sampleClient ∧
    (Json.obj [("success", Json.bool true), ("data", Json.num 5)]).getKey ("success")
      = some (Json.bool true) :=
  ⟨rfl, rfl, rfl⟩

/-- C1 (amended): for every create call with accepted status (200 or 201)
and a decoded body containing success true whose `data` field (defaulted
to an empty dict when absent) is a dict, the client returns Success with
that record and stores the record id (defaulted to `None`) into
`folder_id`, overwriting any previous value. -/
theorem C1_create_stores_returned_id (c : Client) (folder_name parent_folder_id : Json)
    (r : HttpResponse) (fs gs : List (String × Json))
    (hst : r.status = 200 ∨ r.status = 201)
    (hb : r.jsonBody = some (Json.obj fs))
    (hs : lookupField fs ("success") = some (Json.bool true))
    (hd : (lookupField fs ("data")).getD (Json.obj []) = Json.obj gs) :
    (create_folder c folder_name parent_folder_id (TransportOutcome.ok r)).ret = Json.obj gs ∧
    (create_folder c folder_name parent_folder_id (TransportOutcome.ok r)).client.folder_id
      = ((Json.obj gs).getKey ("id")).getD Json.null :=
  create_success_branch c folder_name parent_folder_id r fs gs hst hb hs hd

/-- C1 witness: a concrete 201 create stores the returned id f1. -/
theorem C1_create_stores_returned_id_witness :
    (create_folder sampleClient (Json.str ("X")) Json.null
      (TransportOutcome.ok ⟨201, ("ok"),
        some (Json.obj [("success", Json.bool true),
          ("data", Json.obj [("id", Json.str ("f1")), ("title", Json.str ("X"))])])⟩)).ret
      = Json.obj [("id", Json.str ("f1")), ("title", Json.str ("X"))] ∧
    (create_folder sampleClient (Json.str ("X")) Json.null
      (TransportOutcome.ok ⟨201, ("ok"),
        some (Json.obj [("success", Json.bool true),
          ("data", Json.obj [("id", Json.str ("f1")), ("title", Json.str ("X"))])])⟩)).client.folder_id
      = Json.str ("f1") :=
  C1_create_stores_returned_id sampleClient (Json.str ("X")) Json.null
    ⟨201, ("ok"), some (Json.obj [("success", Json.bool true),
      ("data", Json.obj [("id", Json.str ("f1")), ("title", Json.str ("X"))])])⟩
    [("success", Json.bool true),
      ("data", Json.obj [("id", Json.str ("f1")), ("title", Json.str ("X"))])]
    [("id", Json.str ("f1")), ("title", Json.str ("X"))]
    (Or.inr rfl) rfl rfl rfl

/-- C2: a rename or delete call with no explicit folderId argument (the
defaulted `None`) while `folder_id` is absent (`None`) returns the local
precondition failure (`None`) and never invokes the transport, whatever
transport outcome would have been observed. -/
theorem C2_no_id_precondition_failure (c : Client) (new_name : Json)
    (t t2 : TransportOutcome) (h : c.folder_id = Json.null) :
    (update_folder_name c new_name Json.null t).ret = Json.null ∧
    (update_folder_name c new_name Json.null t).networkCalled = false ∧
    (delete_folder c Json.null t2).ret = Json.null ∧
    (delete_folder c Json.null t2).networkCalled = false :=
  ⟨(update_prec c new_name t h).1, (update_prec c new_name t h).2,
   (delete_prec c t2 h).1, (delete_prec c t2 h).2⟩

/-- C2 witness: a fresh client has no stored id, and both calls
short-circuit even when the transport would have failed loudly. -/
theorem C2_no_id_precondition_failure_witness :
    sampleClient.folder_id = Json.null ∧
    (update_folder_name sampleClient (Json.str ("New")) Json.null
      (TransportOutcome.exn (PyExn.requestError ("down")))).ret = Json.null ∧
    (update_folder_name sampleClient (Json.str ("New")) Json.null
      (TransportOutcome.exn (PyExn.requestError ("down")))).networkCalled = false ∧
    (delete_folder sampleClient Json.null
      (TransportOutcome.exn (PyExn.requestError ("down")))).ret = Json.null ∧
    (delete_folder sampleClient Json.null
      (TransportOutcome.exn (PyExn.requestError ("down")))).networkCalled = false :=
  ⟨rfl, C2_no_id_precondition_failure sampleClient (Json.str ("New"))
    (TransportOutcome.exn (PyExn.requestError ("down")))
    (TransportOutcome.exn (PyExn.requestError ("down"))) rfl⟩

/-- C3: a delete that returns `True` leaves `folder_id` cleared to `None`,
so a subsequent rename or delete with no explicit id short-circuits into
the local precondition failure with no network call. -/
theorem C3_delete_success_clears_id (c : Client) (folder_id new_name : Json)
    (t t1 t2 : TransportOutcome)
    (h : (delete_folder c folder_id t).ret = Json.bool true) :
    (delete_folder c folder_id t).client.folder_id = Json.null ∧
    (update_folder_name (delete_folder c folder_id t).client new_name Json.null t1).ret
      = Json.null ∧
    (update_folder_name (delete_folder c folder_id t).client new_name Json.null t1).networkCalled
      = false ∧
    (delete_folder (delete_folder c folder_id t).client Json.null t2).ret = Json.null ∧
    (delete_folder (delete_folder c folder_id t).client Json.null t2).networkCalled = false := by
  have hcl := delete_ret_true_client c folder_id t h
  rw [hcl]
  exact ⟨rfl, (update_prec _ new_name t1 rfl).1, (update_prec _ new_name t1 rfl).2,
    (delete_prec _ t2 rfl).1, (delete_prec _ t2 rfl).2⟩

/-- C3 witness: a concrete 204 empty-body delete succeeds, clears the
stored id, and the next defaulted rename fails locally. -/
theorem C3_delete_success_clears_id_witness :
    (delete_folder clientAbc Json.null (TransportOutcome.ok ⟨204, "", none⟩)).ret
      = Json.bool true ∧
    (delete_folder clientAbc Json.null (TransportOutcome.ok ⟨204, "", none⟩)).client.folder_id
      = Json.null ∧
    (update_folder_name (delete_folder clientAbc Json.null
        (TransportOutcome.ok ⟨204, "", none⟩)).client (Json.str ("New")) Json.null
      (TransportOutcome.ok ⟨200, "", none⟩)).ret = Json.null :=
  ⟨rfl,
    (C3_delete_success_clears_id clientAbc Json.null (Json.str ("New"))
      (TransportOutcome.ok ⟨204, "", none⟩) (TransportOutcome.ok ⟨200, "", none⟩)
      (TransportOutcome.ok ⟨200, "", none⟩) rfl).1,
    (C3_delete_success_clears_id clientAbc Json.null (Json.str ("New"))
      (TransportOutcome.ok ⟨204, "", none⟩) (TransportOutcome.ok ⟨200, "", none⟩)
      (TransportOutcome.ok ⟨200, "", none⟩) rfl).2.1⟩

/-- C4: the accepted status is necessary (a create outside 200 and 201,
or a rename outside 200, returns the failure `None`) but not sufficient
for success: if the decoded body lacks a `success` key or carries
success false, both operations return the failure `None`, never a
Success value. -/
theorem C4_status_necessary_not_sufficient (c : Client)
    (folder_name parent_folder_id new_name folder_id : Json)
    (r : HttpResponse) (j : Json) :
    (¬(r.status = 200 ∨ r.status = 201) →
      (create_folder c folder_name parent_folder_id (TransportOutcome.ok r)).ret = Json.null) ∧
    (r.status ≠ 200 →
      (update_folder_name c new_name folder_id (TransportOutcome.ok r)).ret = Json.null) ∧
    (r.jsonBody = some j →
      j.hasKey ("success") = false ∨ j.getKey ("success") = some (Json.bool false) →
      (create_folder c folder_name parent_folder_id (TransportOutcome.ok r)).ret = Json.null ∧
      (update_folder_name c new_name folder_id (TransportOutcome.ok r)).ret = Json.null) := by
  refine ⟨create_bad_status_ret_null c folder_name parent_folder_id r,
    update_bad_status_ret_null c new_name folder_id r, ?_⟩
  intro hb hns
  have hns2 : j.getKey ("success") = none ∨ j.getKey ("success") = some (Json.bool false) := by
    rcases hns with h | h
    · left
      cases hq : j.getKey ("success") with
      | none => rfl
      | some v => rw [Json.hasKey, hq] at h; simp at h
    · right; exact h
  exact ⟨create_no_success_ret_null c folder_name parent_folder_id r j hb hns2,
    update_no_success_ret_null c new_name folder_id r j hb hns2⟩

/-- C4 witness: a 400 response with an empty-dict body fails both the
status check and, at accepted status, would lack the success flag. -/
theorem C4_status_necessary_not_sufficient_witness :
    (create_folder sampleClient (Json.str ("X")) Json.null
      (TransportOutcome.ok ⟨400, ("err"), some (Json.obj [])⟩)).ret = Json.null ∧
    (update_folder_name clientAbc (Json.str ("Y")) Json.null
      (TransportOutcome.ok ⟨400, ("err"), some (Json.obj [])⟩)).ret = Json.null ∧
    (create_folder sampleClient (Json.str ("X")) Json.null
      (TransportOutcome.ok ⟨200, ("nf"), some (Json.obj [])⟩)).ret = Json.null :=
  ⟨(C4_status_necessary_not_sufficient sampleClient (Json.str ("X")) Json.null
      (Json.str ("Y")) Json.null ⟨400, ("err"), some (Json.obj [])⟩ (Json.obj [])).1
      (by decide),
   (C4_status_necessary_not_sufficient clientAbc (Json.str ("X")) Json.null
      (Json.str ("Y")) Json.null ⟨400, ("err"), some (Json.obj [])⟩ (Json.obj [])).2.1
      (by decide),
   ((C4_status_necessary_not_sufficient sampleClient (Json.str ("X")) Json.null
      (Json.str ("Y")) Json.null ⟨200, ("nf"), some (Json.obj [])⟩ (Json.obj [])).2.2
      rfl (Or.inl rfl)).1⟩

/-- C5 counterexample: a delete response with status 200 and decodable
body success 0 yields the failure return `False`, although the success
value is the number 0, not the boolean false — the source tests Python
truthiness, so any falsy success value fails, refuting the claim that
only an explicit success false yields Failure. -/
theorem C5_counterexample :
    (delete_folder clientAbc Json.null
      (TransportOutcome.ok ⟨200, ("\x7b\"success\": 0\x7d"),
        some (Json.obj [("success", Json.num 0)])⟩)).ret = Json.bool false ∧
    (Json.obj [("success", Json.num 0)]).getKey ("success") = some (Json.num 0) ∧
    Json.num 0 ≠ Json.bool false :=
  ⟨rfl, rfl, fun h => Json.noConfusion h⟩

/-- C5 (amended): for a delete reaching the network (resolvable target):
a 200 or 204 response with an entirely empty body yields `True` and
clears `folder_id`, with no JSON decode attempt (the outcome is the same
for every decode result); a non-empty decodable body without a `success`
key is treated as success; and the failure return `False` occurs exactly
when the body carries a `success` value that is falsy in the Python
sense (false, 0, null, empty string, list or dict), not only the literal
false. -/
theorem C5_delete_body_handling (c : Client) (fid : Json) (st : Nat)
    (jb : Option Json) (r : HttpResponse) (j : Json)
    (htarget : (if fid.truthy then fid else c.folder_id).truthy = true) :
    ((st = 200 ∨ st = 204) →
      (delete_folder c fid (TransportOutcome.ok ⟨st, "", jb⟩)).ret = Json.bool true ∧
      (delete_folder c fid (TransportOutcome.ok ⟨st, "", jb⟩)).client.folder_id = Json.null) ∧
    ((r.status = 200 ∨ r.status = 204) → r.content ≠ ("") → r.jsonBody = some j →
      j.hasKey ("success") = false →
      (delete_folder c fid (TransportOutcome.ok r)).ret = Json.bool true) ∧
    ((r.status = 200 ∨ r.status = 204) → r.content ≠ ("") → r.jsonBody = some j →
      ((delete_folder c fid (TransportOutcome.ok r)).ret = Json.bool false ↔
        ∃ v, j.getKey ("success") = some v ∧ v.truthy = false)) := by
  refine ⟨?_, ?_, ?_⟩
  · intro hst
    simp only [delete_folder]
    rw [if_pos htarget, if_pos hst]
    simp [Json.truthy]
  · intro hst hc hb hk
    simp only [delete_folder]
    rw [if_pos htarget, if_pos hst]
    cases j with
    | obj fs =>
      have hk2 : lookupField fs ("success") = none := by
        cases hq : lookupField fs ("success") with
        | none => rfl
        | some v => rw [Json.hasKey, Json.getKey, hq] at hk; simp at hk
      simp [hb, hc, hk2, Json.truthy]
    | null => simp [hb, hc, Json.truthy]
    | bool b => simp [hb, hc, Json.truthy]
    | num n => simp [hb, hc, Json.truthy]
    | str s => simp [hb, hc, Json.truthy]
    | arr xs => simp [hb, hc, Json.truthy]
  · intro hst hc hb
    simp only [delete_folder]
    rw [if_pos htarget, if_pos hst]
    cases j with
    | obj fs =>
      simp only [Json.getKey]
      cases hq : lookupField fs ("success") with
      | none =>
        simp [hb, hc, hq, Json.truthy]
      | some v =>
        cases hv : v.truthy <;> simp [hb, hc, hq, hv]
    | null => simp [hb, hc, Json.truthy, Json.getKey]
    | bool b => simp [hb, hc, Json.truthy, Json.getKey]
    | num n => simp [hb, hc, Json.truthy, Json.getKey]
    | str s => simp [hb, hc, Json.truthy, Json.getKey]
    | arr xs => simp [hb, hc, Json.truthy, Json.getKey]

/-- C5 witness: an empty 204 body yields `True` and clears the id. -/
theorem C5_delete_body_handling_witness :
    ((if (Json.null : Json).truthy then (Json.null : Json) else clientAbc.folder_id).truthy
      = true) ∧
    (delete_folder clientAbc Json.null (TransportOutcome.ok ⟨204, "", none⟩)).ret
      = Json.bool true ∧
    (delete_folder clientAbc Json.null (TransportOutcome.ok ⟨204, "", none⟩)).client.folder_id
      = Json.null :=
  ⟨by decide,
    (C5_delete_body_handling clientAbc Json.null 204 none
      ⟨200, ("x"), some (Json.obj [])⟩ (Json.obj []) (by decide)).1 (Or.inr rfl)⟩

/-- C6 counterexample: a server rejection (status 500), a decode failure
on a 200 response, and a connection failure all make `get_all_folders`
return the same bare `None`; the returned failure value carries no
human-readable reason at all, so it cannot distinguish the failure
kinds — the distinguishing text exists only in the printed diagnostics. -/
theorem C6_counterexample :
    (get_all_folders sampleClient
      (TransportOutcome.ok ⟨500, ("Internal Server Error"), none⟩)).ret = Json.null ∧
    (get_all_folders sampleClient
      (TransportOutcome.ok ⟨200, ("not json"), none⟩)).ret = Json.null ∧
    (get_all_folders sampleClient
      (TransportOutcome.exn (PyExn.requestError ("Connection refused")))).ret = Json.null ∧
    (get_all_folders sampleClient
      (TransportOutcome.ok ⟨500, ("Internal Server Error"), none⟩)).ret
      = (get_all_folders sampleClient (TransportOutcome.ok ⟨200, ("not json"), none⟩)).ret :=
  ⟨rfl, rfl, rfl, rfl⟩

/-- C6 (amended): every listAll call with a non-200 status, a JSON decode
failure on a 200 response, or a transport-level exception returns the
failure value `None` (never a propagated exception — the function is
total and every handler returns); the returned value carries no reason,
the distinguishing text being only in the printed diagnostics. -/
theorem C6_list_failures_return_null (c : Client) (r : HttpResponse) (e : PyExn) :
    (r.status ≠ 200 → (get_all_folders c (TransportOutcome.ok r)).ret = Json.null) ∧
    (r.status = 200 → r.jsonBody = none →
      (get_all_folders c (TransportOutcome.ok r)).ret = Json.null) ∧
    (get_all_folders c (TransportOutcome.exn e)).ret = Json.null := by
  refine ⟨?_, ?_, rfl⟩
  · intro h
    simp only [get_all_folders]
    rw [if_neg h]
  · intro h hb
    simp only [get_all_folders]
    rw [if_pos h, hb]

/-- C6 witness: concrete instances of all three failure kinds. -/
theorem C6_list_failures_return_null_witness :
    (get_all_folders sampleClient (TransportOutcome.ok ⟨503, ("busy"), none⟩)).ret
      = Json.null ∧
    (get_all_folders sampleClient (TransportOutcome.ok ⟨200, ("<html>"), none⟩)).ret
      = Json.null ∧
    (get_all_folders sampleClient (TransportOutcome.exn (PyExn.requestError ("timeout")))).ret
      = Json.null :=
  ⟨(C6_list_failures_return_null sampleClient ⟨503, ("busy"), none⟩
      (PyExn.requestError ("timeout"))).1 (by decide),
   (C6_list_failures_return_null sampleClient ⟨200, ("<html>"), none⟩
      (PyExn.requestError ("timeout"))).2.1 rfl rfl,
   (C6_list_failures_return_null sampleClient ⟨200, ("<html>"), none⟩
      (PyExn.requestError ("timeout"))).2.2⟩

/-- C7: rename never modifies the client state (in particular
`folder_id`) under any outcome; and the concrete 200 response with body
success false and error description dup yields the failure return `None`,
prints the line carrying dup, and leaves the stored id unchanged. -/
theorem C7_rename_preserves_id (c : Client) (new_name folder_id : Json)
    (t : TransportOutcome) :
    (update_folder_name c new_name folder_id t).client = c ∧
    (update_folder_name clientAbc (Json.str ("New")) Json.null
      (TransportOutcome.ok ⟨200, dupContent, some dupBody⟩)).ret = Json.null ∧
    ("  Error: dup") ∈ (update_folder_name clientAbc (Json.str ("New")) Json.null
      (TransportOutcome.ok ⟨200, dupContent, some dupBody⟩)).log ∧
    (update_folder_name clientAbc (Json.str ("New")) Json.null
      (TransportOutcome.ok ⟨200, dupContent, some dupBody⟩)).client.folder_id
      = Json.str ("abc") :=
  ⟨update_client_frame c new_name folder_id t, rfl, by decide, rfl⟩

/-- C8 counterexample: with stored id abc, a rename called with the
explicitly supplied but falsy folderId empty-string targets the stored
id abc, not the supplied argument — Python `or` treats any falsy
argument as absent, refuting the claim that an explicitly supplied
folderId always takes precedence. -/
theorem C8_counterexample :
    (update_folder_name clientAbc (Json.str ("N")) (Json.str (""))
      (TransportOutcome.ok ⟨200, ("ok"), none⟩)).requestUrl
      = some (base_url ++ "/abc") ∧
    (update_folder_name clientAbc (Json.str ("N")) (Json.str (""))
      (TransportOutcome.ok ⟨200, ("ok"), none⟩)).requestUrl
      ≠ some (base_url ++ "/" ++ pyStr (Json.str (""))) :=
  ⟨by decide, by decide⟩

/-- C8 (amended): a truthy explicit folderId argument takes precedence in
determining the request target; a falsy explicit argument (the defaulted
`None`, or an empty string) is treated as unsupplied, and the stored
`folder_id` determines the target whenever it is itself truthy. -/
theorem C8_target_resolution (c : Client) (new_name fid : Json)
    (t t2 : TransportOutcome) :
    (fid.truthy = true →
      (update_folder_name c new_name fid t).requestUrl
        = some (base_url ++ "/" ++ pyStr fid) ∧
      (delete_folder c fid t2).requestUrl = some (base_url ++ "/" ++ pyStr fid)) ∧
    (fid.truthy = false → c.folder_id.truthy = true →
      (update_folder_name c new_name fid t).requestUrl
        = some (base_url ++ "/" ++ pyStr c.folder_id) ∧
      (delete_folder c fid t2).requestUrl
        = some (base_url ++ "/" ++ pyStr c.folder_id)) := by
  constructor
  · intro htr
    constructor
    · simp only [update_folder_name, if_pos htr]
      cases t <;> (repeat' split) <;> rfl
    · simp only [delete_folder, if_pos htr]
      cases t2 <;> (repeat' split) <;> rfl
  · intro htr hcf
    have hfneg : ¬(fid.truthy = true) := by simp [htr]
    constructor
    · simp only [update_folder_name, if_neg hfneg, if_pos hcf]
      cases t <;> (repeat' split) <;> rfl
    · simp only [delete_folder, if_neg hfneg, if_pos hcf]
      cases t2 <;> (repeat' split) <;> rfl

/-- C8 witness: a truthy explicit id x overrides the stored abc. -/
theorem C8_target_resolution_witness :
    (Json.str ("x")).truthy = true ∧
    (update_folder_name clientAbc (Json.str ("N")) (Json.str ("x"))
      (TransportOutcome.ok ⟨200, ("ok"), none⟩)).requestUrl
      = some (base_url ++ "/" ++ pyStr (Json.str ("x"))) ∧
    (delete_folder clientAbc (Json.str ("x"))
      (TransportOutcome.ok ⟨200, ("ok"), none⟩)).requestUrl
      = some (base_url ++ "/" ++ pyStr (Json.str ("x"))) :=
  ⟨by decide,
    (C8_target_resolution clientAbc (Json.str ("N")) (Json.str ("x"))
      (TransportOutcome.ok ⟨200, ("ok"), none⟩)
      (TransportOutcome.ok ⟨200, ("ok"), none⟩)).1 (by decide)⟩

/-- C9: a delete whose return is not `True` (the failure return `False`
from an explicit falsy success flag, a non 200 or 204 status or a
transport error, and also the local precondition return `None`) leaves
the whole client state, in particular `folder_id`, unchanged: only a
successful delete mutates the stored id. -/
theorem C9_failed_delete_preserves_id (c : Client) (folder_id : Json)
    (t : TransportOutcome)
    (h : (delete_folder c folder_id t).ret ≠ Json.bool true) :
    (delete_folder c folder_id t).client = c :=
  delete_ret_ne_true_client c folder_id t h

/-- C9 witness: a delete rejected with status 500 returns `False` and
leaves the stored id in place. -/
theorem C9_failed_delete_preserves_id_witness :
    (delete_folder clientAbc Json.null (TransportOutcome.ok ⟨500, ("err"), none⟩)).ret
      = Json.bool false ∧
    (delete_folder clientAbc Json.null (TransportOutcome.ok ⟨500, ("err"), none⟩)).client
      = clientAbc :=
  ⟨rfl, C9_failed_delete_preserves_id clientAbc Json.null
    (TransportOutcome.ok ⟨500, ("err"), none⟩)
    (fun h => by injection h with hb; cases hb)⟩

/-- C10: a create with accepted status and success true whose `data`
field is absent, or is a dict lacking an id, still returns Success with
the possibly empty record while setting `folder_id` to `None`, so a
subsequent defaulted rename has no target and fails locally. -/
theorem C10_create_success_missing_id (c : Client)
    (folder_name parent_folder_id new_name : Json) (t1 : TransportOutcome)
    (r : HttpResponse) (fs : List (String × Json))
    (hst : r.status = 200 ∨ r.status = 201)
    (hb : r.jsonBody = some (Json.obj fs))
    (hs : lookupField fs ("success") = some (Json.bool true)) :
    (lookupField fs ("data") = none →
      (create_folder c folder_name parent_folder_id (TransportOutcome.ok r)).ret = Json.obj [] ∧
      (create_folder c folder_name parent_folder_id (TransportOutcome.ok r)).client.folder_id
        = Json.null ∧
      (update_folder_name
        (create_folder c folder_name parent_folder_id (TransportOutcome.ok r)).client
        new_name Json.null t1).ret = Json.null ∧
      (update_folder_name
        (create_folder c folder_name parent_folder_id (TransportOutcome.ok r)).client
        new_name Json.null t1).networkCalled = false) ∧
    (∀ gs, lookupField fs ("data") = some (Json.obj gs) → lookupField gs ("id") = none →
      (create_folder c folder_name parent_folder_id (TransportOutcome.ok r)).ret = Json.obj gs ∧
      (create_folder c folder_name parent_folder_id (TransportOutcome.ok r)).client.folder_id
        = Json.null ∧
      (update_folder_name
        (create_folder c folder_name parent_folder_id (TransportOutcome.ok r)).client
        new_name Json.null t1).ret = Json.null ∧
      (update_folder_name
        (create_folder c folder_name parent_folder_id (TransportOutcome.ok r)).client
        new_name Json.null t1).networkCalled = false) := by
  constructor
  · intro hd
    have h := create_success_branch c folder_name parent_folder_id r fs []
      hst hb hs (by rw [hd]; rfl)
    have h2 : (create_folder c folder_name parent_folder_id
        (TransportOutcome.ok r)).client.folder_id = Json.null := h.2
    exact ⟨h.1, h2, (update_prec _ new_name t1 h2).1, (update_prec _ new_name t1 h2).2⟩
  · intro gs hd hid
    have h := create_success_branch c folder_name parent_folder_id r fs gs
      hst hb hs (by rw [hd]; rfl)
    have h2 := h.2
    rw [hid] at h2
    simp only [Option.getD_none] at h2
    exact ⟨h.1, h2, (update_prec _ new_name t1 h2).1, (update_prec _ new_name t1 h2).2⟩

/-- C10 witness: a 200 create whose body has success true and no data at
all returns the empty record and leaves no default target. -/
theorem C10_create_success_missing_id_witness :
    (create_folder sampleClient (Json.str ("X")) Json.null
      (TransportOutcome.ok ⟨200, ("ok"), some (Json.obj [("success", Json.bool true)])⟩)).ret
      = Json.obj [] ∧
    (create_folder sampleClient (Json.str ("X")) Json.null
      (TransportOutcome.ok ⟨200, ("ok"), some (Json.obj [("success", Json.bool true)])⟩)).client.folder_id
      = Json.null ∧
    (update_folder_name (create_folder sampleClient (Json.str ("X")) Json.null
      (TransportOutcome.ok ⟨200, ("ok"), some (Json.obj [("success", Json.bool true)])⟩)).client
      (Json.str ("Y")) Json.null (TransportOutcome.ok ⟨200, ("ok"), none⟩)).ret = Json.null :=
  ⟨((C10_create_success_missing_id sampleClient (Json.str ("X")) Json.null (Json.str ("Y"))
      (TransportOutcome.ok ⟨200, ("ok"), none⟩)
      ⟨200, ("ok"), some (Json.obj [("success", Json.bool true)])⟩
      [("success", Json.bool true)] (Or.inl rfl) rfl rfl).1 rfl).1,
   ((C10_create_success_missing_id sampleClient (Json.str ("X")) Json.null (Json.str ("Y"))
      (TransportOutcome.ok ⟨200, ("ok"), none⟩)
      ⟨200, ("ok"), some (Json.obj [("success", Json.bool true)])⟩
      [("success", Json.bool true)] (Or.inl rfl) rfl rfl).1 rfl).2.1,
   ((C10_create_success_missing_id sampleClient (Json.str ("X")) Json.null (Json.str ("Y"))
      (TransportOutcome.ok ⟨200, ("ok"), none⟩)
      ⟨200, ("ok"), some (Json.obj [("success", Json.bool true)])⟩
      [("success", Json.bool true)] (Or.inl rfl) rfl rfl).1 rfl).2.2.1⟩
